import Mathlib

/-!
Shallow embedding of the simulation core of a top-down arcade shooter
(source: src/ggg/main.py).  Positions, radii, timers and stat multipliers
are rationals; health, currency and score are integers; upgrade counters
are naturals (the source only ever increments them from 0).  The source's
`random.random()` / `random.uniform` draws are modelled as a stream of
rationals consumed in the exact order the source consumes them.
-/

namespace TDS

/-! Configuration constants (main.py lines 15-50).  The source reassigns
`WINDOW_WIDTH`/`WINDOW_HEIGHT` to the fullscreen size at startup, so the
play-area bounds are threaded as explicit parameters `W H` below. -/

def PLAYER_RADIUS : ℚ := 16

def PLAYER_MAX_HEALTH : ℤ := 5

def BULLET_SPEED : ℚ := 600

def BULLET_RADIUS : ℚ := 4

def BULLET_COOLDOWN_SEC : ℚ := 3/25

def BULLET_LIFETIME_SEC : ℚ := 6/5

def ENEMY_RADIUS : ℚ := 14

def ENEMY_SPAWN_EVERY_SEC : ℚ := 11/10

def ENEMY_SPAWN_ACCEL_EVERY_SEC : ℚ := 20

def ENEMY_SPAWN_ACCEL_FACTOR : ℚ := 23/25

def INVULN_ON_HIT_SEC : ℚ := 3/5

def LEVEL_KILLS_TO_BOSS_BASE : ℤ := 30

def LEVEL_KILLS_TO_BOSS_INC : ℤ := 10

def NORMAL_DROP_CHANCE : ℚ := 3/10

/-- Circle overlap test (main.py line 57): the source compares
`distance_to ≤ ra + rb`; the embedding compares squares, which is
equivalent for the nonnegative radii the program uses and keeps the
test rational-valued and decidable. -/
def circle_intersects_circle (ax ay ra bx bY rb : ℚ) : Bool :=
  decide ((ax - bx) ^ 2 + (ay - bY) ^ 2 ≤ (ra + rb) ^ 2)

/-- Player bullet (main.py lines 61-78). -/
structure Bullet where
  posX : ℚ
  posY : ℚ
  velX : ℚ
  velY : ℚ
  radius : ℚ
  pierce_remaining : ℕ
  lifetime : ℚ
  damage : ℤ
deriving DecidableEq

/-- Bullet.is_alive (main.py lines 74-78), with the play bounds `W H`
passed explicitly. -/
def Bullet.is_alive (W H : ℚ) (b : Bullet) : Bool :=
  decide (0 < b.lifetime) && decide (-50 ≤ b.posX) && decide (b.posX ≤ W + 50)
    && decide (-50 ≤ b.posY) && decide (b.posY ≤ H + 50)

/-- Enemy (main.py lines 84-91); the Shooter variant's extra timers play
no role in the collision-resolution claims. -/
structure Enemy where
  posX : ℚ
  posY : ℚ
  speed : ℚ
  radius : ℚ
  max_health : ℤ
  health : ℤ
  is_boss : Bool
deriving DecidableEq

/-- Coin (main.py lines 290-295). -/
structure Coin where
  posX : ℚ
  posY : ℚ
  value : ℤ
  velX : ℚ
  velY : ℚ
  radius : ℚ
deriving DecidableEq

/-- Explosion (main.py lines 150-156). -/
structure Explosion where
  posX : ℚ
  posY : ℚ
  radius : ℚ
  max_radius : ℚ
  damage : ℤ
  lifetime : ℚ
deriving DecidableEq

/-- Player state (main.py lines 171-199). -/
structure Player where
  posX : ℚ
  posY : ℚ
  radius : ℚ
  health : ℤ
  invuln_timer : ℚ
  shoot_cooldown : ℚ
  coins : ℤ
  speed_multiplier : ℚ
  fire_rate_multiplier : ℚ
  bullet_size_level : ℕ
  bullet_pierce_level : ℕ
  magnet_radius : ℚ
  max_health_bonus : ℕ
  armor : ℤ
  bullet_damage_level : ℕ
  coin_gain_level : ℕ
  dodge_level : ℕ
  regen_level : ℕ
  lifesteal_level : ℕ
  crit_level : ℕ
  aoe_on_kill_level : ℕ
  magnet_bonus_level : ℕ
  bullet_speed_level : ℕ
  regen_timer : ℚ
  bullet_speed_multiplier : ℚ
  lifesteal_kills : ℕ
deriving DecidableEq

/-- The Player constructor defaults (main.py lines 172-199). -/
def Player.init (px py : ℚ) : Player :=
  { posX := px, posY := py, radius := PLAYER_RADIUS, health := PLAYER_MAX_HEALTH,
    invuln_timer := 0, shoot_cooldown := 0, coins := 0, speed_multiplier := 1,
    fire_rate_multiplier := 1, bullet_size_level := 0, bullet_pierce_level := 0,
    magnet_radius := 60, max_health_bonus := 0, armor := 0, bullet_damage_level := 0,
    coin_gain_level := 0, dodge_level := 0, regen_level := 0, lifesteal_level := 0,
    crit_level := 0, aoe_on_kill_level := 0, magnet_bonus_level := 0,
    bullet_speed_level := 0, regen_timer := 0, bullet_speed_multiplier := 1,
    lifesteal_kills := 0 }

/-- Player.max_health (main.py lines 232-233). -/
def Player.max_health (p : Player) : ℤ :=
  PLAYER_MAX_HEALTH + (p.max_health_bonus : ℤ)

/-- Player.take_hit (main.py lines 253-264).  The dodge decision
`random.random() < min(0.5, 0.05 * dodge_level)` takes its draw as the
explicit argument `roll`. -/
def Player.take_hit (p : Player) (roll : ℚ) : Player :=
  if 0 < p.invuln_timer then p
  else if 0 < p.dodge_level ∧ roll < min (1/2 : ℚ) ((1/20) * (p.dodge_level : ℚ)) then
    { p with invuln_timer := 1/5 }
  else if 0 < p.armor then
    { p with armor := p.armor - 1, invuln_timer := INVULN_ON_HIT_SEC }
  else
    { p with health := p.health - 1, invuln_timer := INVULN_ON_HIT_SEC }

/-- Player.on_kill (main.py lines 266-274): lifesteal bookkeeping. -/
def Player.on_kill (p : Player) : Player :=
  if 0 < p.lifesteal_level then
    let kills := p.lifesteal_kills + 1
    let heal_interval := max 1 (5 - p.lifesteal_level)
    if heal_interval ≤ kills then
      { p with lifesteal_kills := 0, health := min p.max_health (p.health + 1) }
    else
      { p with lifesteal_kills := kills }
  else p

/-- The data of a successfully fired bullet.  The source builds the bullet
velocity as `normalize(aim - position) * BULLET_SPEED * speed_mult`; since
normalisation is irrational the embedding carries the unnormalised
direction `(dirX, dirY)` together with the scalar speed
`BULLET_SPEED * speed_mult`, which is the bullet's velocity magnitude. -/
structure ShotSpec where
  dirX : ℚ
  dirY : ℚ
  speed : ℚ
  radius : ℚ
  pierce_remaining : ℕ
  damage : ℤ
deriving DecidableEq

/-- Player.try_shoot (main.py lines 235-251): returns the optional shot
together with the updated player (cooldown reset on success). -/
def Player.try_shoot (p : Player) (aimX aimY : ℚ) : Option ShotSpec × Player :=
  if 0 < p.shoot_cooldown then (none, p)
  else
    let dx := aimX - p.posX
    let dy := aimY - p.posY
    if dx ^ 2 + dy ^ 2 ≤ 1/1000000 then (none, p)
    else
      let speed_mult := p.bullet_speed_multiplier * (1 + (2/25) * (p.bullet_speed_level : ℚ))
      let cooldown := BULLET_COOLDOWN_SEC / p.fire_rate_multiplier
      let p2 := { p with shoot_cooldown := max (1/50) cooldown }
      (some { dirX := dx, dirY := dy,
              speed := BULLET_SPEED * speed_mult,
              radius := BULLET_RADIUS * (1 + (7/20) * (p.bullet_size_level : ℚ)),
              pierce_remaining := p.bullet_pierce_level,
              damage := 1 + (p.bullet_damage_level : ℤ) }, p2)

/-- Enemy spawner state (main.py lines 328-337). -/
structure EnemySpawner where
  timer : ℚ
  current_interval : ℚ
  accel_timer : ℚ
  level : ℤ
  kills_this_level : ℤ
  boss_active : Bool
  level_transition_timer : ℚ
  boss_banner_timer : ℚ
deriving DecidableEq

/-- EnemySpawner constructor (main.py lines 329-337). -/
def EnemySpawner.init : EnemySpawner :=
  { timer := ENEMY_SPAWN_EVERY_SEC, current_interval := ENEMY_SPAWN_EVERY_SEC,
    accel_timer := 0, level := 1, kills_this_level := 0, boss_active := false,
    level_transition_timer := 0, boss_banner_timer := 0 }

/-- EnemySpawner.update (main.py lines 339-347). -/
def EnemySpawner.update (s : EnemySpawner) (dt : ℚ) : EnemySpawner :=
  if 0 < s.level_transition_timer then
    { s with level_transition_timer := s.level_transition_timer - dt }
  else
    let s2 := { s with timer := s.timer - dt, accel_timer := s.accel_timer + dt }
    if ENEMY_SPAWN_ACCEL_EVERY_SEC ≤ s2.accel_timer then
      { s2 with
          accel_timer := 0,
          current_interval := max (1/4) (s2.current_interval * ENEMY_SPAWN_ACCEL_FACTOR) }
    else s2

/-- EnemySpawner.should_spawn (main.py lines 349-350). -/
def EnemySpawner.should_spawn (s : EnemySpawner) : Bool :=
  decide (s.timer ≤ 0) && decide (s.level_transition_timer ≤ 0)

/-- EnemySpawner.should_spawn_boss (main.py lines 374-378). -/
def EnemySpawner.should_spawn_boss (s : EnemySpawner) : Bool :=
  !s.boss_active &&
    decide (LEVEL_KILLS_TO_BOSS_BASE + (s.level - 1) * LEVEL_KILLS_TO_BOSS_INC
              ≤ s.kills_this_level)

/-- EnemySpawner.on_boss_killed (main.py lines 397-404). -/
def EnemySpawner.on_boss_killed (s : EnemySpawner) : EnemySpawner :=
  let ci := max (1/4) (s.current_interval * (19/20))
  { s with
      level := s.level + 1,
      kills_this_level := 0,
      boss_active := false,
      current_interval := ci,
      timer := ci,
      level_transition_timer := 6/5 }

/-- The in-pass kill bookkeeping `spawner.kills_this_level += 1`
(main.py line 1090). -/
def incKills (s : EnemySpawner) : EnemySpawner :=
  { s with kills_this_level := s.kills_this_level + 1 }

/-- One spawner-relevant event of a run: a simulation tick of `dt`
seconds or a boss defeat. -/
inductive SpEvent where
  | tick (dt : ℚ)
  | bossKilled
deriving DecidableEq

def applySpEvent (s : EnemySpawner) : SpEvent → EnemySpawner
  | .tick dt => s.update dt
  | .bossKilled => s.on_boss_killed

/-- `random.uniform lo hi` applied to a base draw `u` in [0,1). -/
def uniform (lo hi u : ℚ) : ℚ := lo + (hi - lo) * u

/-- The mutable state of one run that the combat resolver touches
(main.py `run`, lines 682-694), plus the randomness stream `rng` and the
index `rIdx` of the next draw. -/
structure GameState where
  enemies : List Enemy
  bullets : List Bullet
  coins : List Coin
  explosions : List Explosion
  score : ℤ
  player : Player
  spawner : EnemySpawner
  rng : ℕ → ℚ
  rIdx : ℕ

/-- Consume one draw from the randomness stream. -/
def GameState.draw (st : GameState) : ℚ × GameState :=
  (st.rng st.rIdx, { st with rIdx := st.rIdx + 1 })

/-- The coin list built by the boss-drop loop (main.py lines 1080-1081):
the `k`-th coin (k = 0..n-1) sits at the boss position with value 2 and a
velocity pair from the draws `2k` and `2k+1` past the given index. -/
def bossCoinList : ℕ → ℚ → ℚ → (ℕ → ℚ) → ℕ → List Coin
  | 0, _, _, _, _ => []
  | n + 1, px, py, r, i =>
    { posX := px, posY := py, value := 2,
      velX := uniform (-180) 180 (r i), velY := uniform (-180) 180 (r (i + 1)),
      radius := 6 } :: bossCoinList n px py r (i + 2)

/-- The boss coin bundle (main.py lines 1080-1081): `for _ in range(14)`
append a coin of value 2 at the boss position with two fresh
uniform(-180,180) draws; the loop appends `bossCoinList` and advances the
draw index by two per coin. -/
def spawnBossCoins (n : ℕ) (px py : ℚ) (st : GameState) : GameState :=
  { st with
      coins := st.coins ++ bossCoinList n px py st.rng st.rIdx,
      rIdx := st.rIdx + 2 * n }

/-- The death-effects block of the bullet-vs-enemy pass
(main.py lines 1063-1090), applied to the already-decremented dead enemy
`e`: score, lifesteal hook, optional AOE explosion, boss/normal currency
drops and the kill counter increment. -/
def procKill (st : GameState) (e : Enemy) : GameState :=
  let st1 := { st with score := st.score + 1, player := st.player.on_kill }
  let st2 :=
    if 0 < st1.player.aoe_on_kill_level then
      { st1 with explosions := st1.explosions ++
          [{ posX := e.posX, posY := e.posY, radius := 0,
             max_radius := 40 + 10 * (st1.player.aoe_on_kill_level : ℚ),
             damage := 1 + (st1.player.aoe_on_kill_level : ℤ), lifetime := 3/10 }] }
    else st1
  let st3 :=
    if e.is_boss then
      let sa := spawnBossCoins 14 e.posX e.posY st2
      let sb := { sa with spawner := sa.spawner.on_boss_killed }
      let d := sb.draw
      if d.1 < 1/2 then
        { d.2 with player := { d.2.player with armor := d.2.player.armor + 1 } }
      else d.2
    else
      let d := st2.draw
      if d.1 < NORMAL_DROP_CHANCE then
        let dv := d.2.draw
        let dx := dv.2.draw
        let dy := dx.2.draw
        { dy.2 with coins := dy.2.coins ++
            [{ posX := e.posX, posY := e.posY,
               value := if dv.1 < 17/20 then 1 else 2,
               velX := uniform (-40) 40 dx.1, velY := uniform (-40) 40 dy.1,
               radius := 6 }] }
      else d.2
  { st3 with spawner := incKills st3.spawner }

/-- The overlap test of the inner bullet loop (main.py line 1058). -/
def Bullet.overlapsEnemy (e : Enemy) (b : Bullet) : Bool :=
  circle_intersects_circle e.posX e.posY e.radius b.posX b.posY b.radius

/-- Split the bullet list at the first bullet overlapping `e`: the inner
`for b in bullets ... break` loop of the pass.  Returns the prefix of
non-overlapping bullets, the hit bullet and the remaining suffix. -/
def hitSplit (e : Enemy) : List Bullet → Option (List Bullet × Bullet × List Bullet)
  | [] => none
  | b :: bs =>
    if Bullet.overlapsEnemy e b then some ([], b, bs)
    else
      match hitSplit e bs with
      | none => none
      | some (pre, hb, post) => some (b :: pre, hb, post)

/-- The pierce bookkeeping applied to the colliding bullet
(main.py lines 1091-1101, identical in the kill and no-kill branches):
decrement remaining pierce if positive, otherwise zero the lifetime. -/
def bulletAfterHit (b : Bullet) : Bullet :=
  if 0 < b.pierce_remaining then { b with pierce_remaining := b.pierce_remaining - 1 }
  else { b with lifetime := 0 }

/-- One iteration of the outer enemy loop of the bullet-vs-enemy pass
(main.py lines 1054-1104).  Surviving enemies are appended to
`st.enemies` (the `alive_enemies` accumulator of the source). -/
def procEnemy (st : GameState) (e : Enemy) : GameState :=
  match hitSplit e st.bullets with
  | none => { st with enemies := st.enemies ++ [e] }
  | some (pre, b, post) =>
    let st2 := { st with bullets := pre ++ bulletAfterHit b :: post }
    let e2 := { e with health := e.health - 1 }
    if e2.health ≤ 0 then procKill st2 e2
    else { st2 with enemies := st2.enemies ++ [e2] }

/-- The bullet-vs-enemy pass followed by the expired-bullet purge
(main.py lines 1053-1106). -/
def passCore (W H : ℚ) (g : GameState) : GameState :=
  let st := g.enemies.foldl procEnemy { g with enemies := [] }
  { st with bullets := st.bullets.filter (Bullet.is_alive W H) }

/-- EnemySpawner.spawn_boss (main.py lines 380-395) inlined at its only
call site: marks the boss active, shows the banner and appends a boss
enemy on a random edge.  The source's `random.choice` over the four
sides is modelled by partitioning one draw into quarters.  The source's
`player_pos` parameter is unused there and hence omitted. -/
def GameState.spawn_boss (W H : ℚ) (st : GameState) : GameState :=
  let st1 := { st with spawner :=
      { st.spawner with boss_active := true, boss_banner_timer := 1 } }
  let d := st1.draw
  let pos : ℚ × ℚ :=
    if d.1 < 1/4 then (W / 2, -(ENEMY_RADIUS * 4))
    else if d.1 < 1/2 then (W / 2, H + ENEMY_RADIUS * 4)
    else if d.1 < 3/4 then (-(ENEMY_RADIUS * 4), H / 2)
    else (W + ENEMY_RADIUS * 4, H / 2)
  let ds := d.2.draw
  let base_hp : ℤ := 280 + 120 * (ds.2.spawner.level - 1)
  { ds.2 with enemies := ds.2.enemies ++
      [{ posX := pos.1, posY := pos.2, speed := uniform 100 140 ds.1,
         radius := 34, max_health := base_hp, health := base_hp, is_boss := true }] }

/-- One full resolver pass (main.py lines 1053-1110): the bullet-vs-enemy
pass, the bullet purge and then the boss gate. -/
def resolverPass (W H : ℚ) (g : GameState) : GameState :=
  let st := passCore W H g
  if st.spawner.should_spawn_boss then st.spawn_boss W H else st

/-! Shop model (main.py lines 726-743 for the cost tables and
lines 875-939 for the purchase handlers).  The local upgrade counters of
`run` live alongside the player. -/

structure ShopCtx where
  player : Player
  speed_levels : ℕ
  firerate_levels : ℕ
  pierce_levels : ℕ
  size_levels : ℕ
  magnet_levels : ℕ
  hp_levels : ℕ
deriving DecidableEq

inductive Upgrade where
  | speed | firerate | pierce | size | magnet | hp | dmg | coin
deriving DecidableEq

/-- compute_costs (main.py lines 733-743): fixed cost arrays indexed by
the current level, cost 0 once the table is exhausted (maxed). -/
def compute_cost (s : ShopCtx) : Upgrade → ℤ
  | .speed =>
    match s.speed_levels with
    | 0 => 10 | 1 => 20 | 2 => 35 | 3 => 55 | _ => 0
  | .firerate =>
    match s.firerate_levels with
    | 0 => 12 | 1 => 24 | 2 => 40 | 3 => 60 | 4 => 85 | _ => 0
  | .pierce =>
    match s.pierce_levels with
    | 0 => 15 | 1 => 30 | 2 => 50 | _ => 0
  | .size =>
    match s.size_levels with
    | 0 => 12 | 1 => 24 | 2 => 40 | _ => 0
  | .magnet =>
    match s.magnet_levels with
    | 0 => 10 | 1 => 20 | 2 => 32 | 3 => 48 | _ => 0
  | .hp =>
    match s.hp_levels with
    | 0 => 20 | 1 => 40 | 2 => 70 | 3 => 110 | 4 => 160 | _ => 0
  | .dmg =>
    match s.player.bullet_damage_level with
    | 0 => 18 | 1 => 36 | 2 => 60 | 3 => 90 | 4 => 130 | _ => 0
  | .coin =>
    match s.player.coin_gain_level with
    | 0 => 14 | 1 => 28 | 2 => 50 | _ => 0

/-- The success branch of each purchase handler (main.py lines 878-939):
deduct the cost and apply the upgrade's effect. -/
def applyUpgrade (s : ShopCtx) (u : Upgrade) : ShopCtx :=
  let cost := compute_cost s u
  match u with
  | .speed =>
    { s with
        speed_levels := s.speed_levels + 1,
        player := { s.player with
          coins := s.player.coins - cost,
          speed_multiplier := s.player.speed_multiplier * (28/25) } }
  | .firerate =>
    { s with
        firerate_levels := s.firerate_levels + 1,
        player := { s.player with
          coins := s.player.coins - cost,
          fire_rate_multiplier := s.player.fire_rate_multiplier * (23/20) } }
  | .pierce =>
    { s with
        pierce_levels := s.pierce_levels + 1,
        player := { s.player with
          coins := s.player.coins - cost,
          bullet_pierce_level := s.player.bullet_pierce_level + 1 } }
  | .size =>
    { s with
        size_levels := s.size_levels + 1,
        player := { s.player with
          coins := s.player.coins - cost,
          bullet_size_level := s.player.bullet_size_level + 1 } }
  | .magnet =>
    { s with
        magnet_levels := s.magnet_levels + 1,
        player := { s.player with
          coins := s.player.coins - cost,
          magnet_radius := s.player.magnet_radius + 60 } }
  | .hp =>
    let p1 := { s.player with
      coins := s.player.coins - cost,
      max_health_bonus := s.player.max_health_bonus + 1 }
    { s with
        hp_levels := s.hp_levels + 1,
        player := { p1 with health := min p1.max_health (p1.health + 1) } }
  | .dmg =>
    { s with player := { s.player with
        coins := s.player.coins - cost,
        bullet_damage_level := s.player.bullet_damage_level + 1 } }
  | .coin =>
    { s with player := { s.player with
        coins := s.player.coins - cost,
        coin_gain_level := s.player.coin_gain_level + 1 } }

/-- A purchase attempt: the guard `cost > 0 and player.coins >= cost`
used by every handler in main.py lines 875-939. -/
def buy (s : ShopCtx) (u : Upgrade) : ShopCtx :=
  if 0 < compute_cost s u ∧ compute_cost s u ≤ s.player.coins then applyUpgrade s u
  else s

/-- The crit purchase of the item shop (main.py lines 1240-1241).  The
source cost `int(24 * (1 + 0.5 * crit_level))` equals `24 + 12 * level`
exactly for every natural level. -/
def critItemCost (p : Player) : ℤ := 24 + 12 * (p.crit_level : ℤ)

def buyCritItem (p : Player) : Player :=
  if critItemCost p ≤ p.coins then
    { p with coins := p.coins - critItemCost p, crit_level := p.crit_level + 1 }
  else p

/-! Persistence (main.py lines 697-723): a snapshot with every field
optional; a missing key makes `data.get` return the baseline default. -/

structure SaveData where
  coins : Option ℤ
  speed_multiplier : Option ℚ
  fire_rate_multiplier : Option ℚ
  bullet_size_level : Option ℕ
  bullet_pierce_level : Option ℕ
  magnet_radius : Option ℚ
  max_health_bonus : Option ℕ
  armor : Option ℤ
  bullet_damage_level : Option ℕ
  coin_gain_level : Option ℕ
  speed_levels : Option ℕ
  firerate_levels : Option ℕ
  pierce_levels : Option ℕ
  size_levels : Option ℕ
  magnet_levels : Option ℕ
  hp_levels : Option ℕ
deriving DecidableEq

/-- Restoring a fresh player from a snapshot (main.py lines 700-712):
each present field overwrites the constructor default, each missing field
keeps its baseline, and health is then set to the (possibly enlarged)
maximum. -/
def loadPlayer (px py : ℚ) (d : SaveData) : Player :=
  let p := Player.init px py
  let p1 := { p with
    coins := d.coins.getD 0,
    speed_multiplier := d.speed_multiplier.getD 1,
    fire_rate_multiplier := d.fire_rate_multiplier.getD 1,
    bullet_size_level := d.bullet_size_level.getD 0,
    bullet_pierce_level := d.bullet_pierce_level.getD 0,
    magnet_radius := d.magnet_radius.getD 60,
    max_health_bonus := d.max_health_bonus.getD 0,
    armor := d.armor.getD 0,
    bullet_damage_level := d.bullet_damage_level.getD 0,
    coin_gain_level := d.coin_gain_level.getD 0 }
  { p1 with health := p1.max_health }

/-- The shop counters preloaded from the snapshot
(main.py lines 714-719 and 721-723). -/
def loadCounters (d : SaveData) : ℕ × ℕ × ℕ × ℕ × ℕ × ℕ :=
  (d.speed_levels.getD 0, d.firerate_levels.getD 0, d.pierce_levels.getD 0,
   d.size_levels.getD 0, d.magnet_levels.getD 0, d.hp_levels.getD 0)

/-- Overwrite the two combat-inert counters, for the non-interference
statement of claim C10. -/
def setCG (c g : ℕ) (p : Player) : Player :=
  { p with crit_level := c, coin_gain_level := g }

def setCGst (c g : ℕ) (st : GameState) : GameState :=
  { st with player := setCG c g st.player }

/-! Concrete fixtures for the witness scenarios: a pierceless bullet at
the origin, plain enemies on the x-axis, a boss, and a game state whose
randomness stream is constantly 1 (so no optional drop fires). -/

def fixBullet : Bullet :=
  { posX := 0, posY := 0, velX := 0, velY := 0, radius := 4,
    pierce_remaining := 0, lifetime := 1, damage := 1 }

def fixEnemy (x : ℚ) (hp : ℤ) : Enemy :=
  { posX := x, posY := 0, speed := 100, radius := 14,
    max_health := hp, health := hp, is_boss := false }

def fixBoss : Enemy :=
  { posX := 0, posY := 0, speed := 120, radius := 34,
    max_health := 1, health := 1, is_boss := true }

def fixSpawner : EnemySpawner :=
  { timer := 1, current_interval := 1, accel_timer := 0, level := 3,
    kills_this_level := 50, boss_active := true,
    level_transition_timer := 0, boss_banner_timer := 0 }

def fixG (es : List Enemy) (bs : List Bullet) (sp : EnemySpawner) : GameState :=
  { enemies := es, bullets := bs, coins := [], explosions := [], score := 0,
    player := Player.init 480 270, spawner := sp, rng := fun _ => 1, rIdx := 0 }

def fixShop : ShopCtx :=
  { player := Player.init 480 270, speed_levels := 0, firerate_levels := 0,
    pierce_levels := 0, size_levels := 0, magnet_levels := 0, hp_levels := 0 }

def fixSave : SaveData :=
  { coins := none, speed_multiplier := none, fire_rate_multiplier := none,
    bullet_size_level := none, bullet_pierce_level := none, magnet_radius := none,
    max_health_bonus := none, armor := none, bullet_damage_level := none,
    coin_gain_level := none, speed_levels := none, firerate_levels := none,
    pierce_levels := none, size_levels := none, magnet_levels := none,
    hp_levels := none }

/-! Helper lemmas. -/

theorem incKills_iterate (s : EnemySpawner) (n : ℕ) :
    incKills^[n] s = { s with kills_this_level := s.kills_this_level + n } := by
  induction n with
  | zero => simp [incKills]
  | succ k ih =>
    rw [Function.iterate_succ_apply', ih]
    simp [incKills]
    omega

theorem applySpEvent_interval (s : EnemySpawner) (ev : SpEvent)
    (h : 1/4 ≤ s.current_interval) :
    1/4 ≤ (applySpEvent s ev).current_interval ∧
      (applySpEvent s ev).current_interval ≤ s.current_interval := by
  have hnn : (0:ℚ) ≤ s.current_interval := le_trans (by norm_num) h
  have hfac : s.current_interval * (23/25) ≤ s.current_interval :=
    mul_le_of_le_one_right hnn (by norm_num)
  have hfac2 : s.current_interval * (19/20) ≤ s.current_interval :=
    mul_le_of_le_one_right hnn (by norm_num)
  cases ev with
  | tick dt =>
    simp only [applySpEvent, EnemySpawner.update, ENEMY_SPAWN_ACCEL_FACTOR,
      ENEMY_SPAWN_ACCEL_EVERY_SEC]
    split_ifs
    · exact ⟨h, le_refl _⟩
    · exact ⟨le_max_left _ _, max_le h hfac⟩
    · exact ⟨h, le_refl _⟩
  | bossKilled =>
    simp only [applySpEvent, EnemySpawner.on_boss_killed]
    exact ⟨le_max_left _ _, max_le h hfac2⟩

theorem foldl_interval_lower (evs : List SpEvent) :
    ∀ s : EnemySpawner, 1/4 ≤ s.current_interval →
      1/4 ≤ (evs.foldl applySpEvent s).current_interval := by
  induction evs with
  | nil => intro s h; exact h
  | cons ev rest ih =>
    intro s h
    exact ih _ (applySpEvent_interval s ev h).1

end TDS

namespace TDS

/-- Claim C4: `take_hit` is a no-op while the invulnerability timer is
positive; a non-dodged, non-invulnerable hit consumes 1 armor when armor
is positive, otherwise decrements health by 1, and resets the timer to
the post-hit duration 0.6 s; consequently, starting from armor 2 and
health 5, three consecutive non-dodged non-invulnerable hits give
(armor, health) = (1,5), then (0,5), then (0,4). -/
theorem take_hit_armor_before_health :
    (∀ (p : Player) (roll : ℚ), 0 < p.invuln_timer → p.take_hit roll = p) ∧
    (∀ (p : Player) (roll : ℚ), p.invuln_timer ≤ 0 →
      ¬(0 < p.dodge_level ∧ roll < min (1/2 : ℚ) ((1/20) * (p.dodge_level : ℚ))) →
      p.take_hit roll =
        if 0 < p.armor then { p with armor := p.armor - 1, invuln_timer := 3/5 }
        else { p with health := p.health - 1, invuln_timer := 3/5 }) ∧
    (∀ (p : Player) (roll : ℚ), p.invuln_timer ≤ 0 →
      ¬(0 < p.dodge_level ∧ roll < min (1/2 : ℚ) ((1/20) * (p.dodge_level : ℚ))) →
      p.armor = 2 → p.health = 5 →
      (p.take_hit roll).armor = 1 ∧ (p.take_hit roll).health = 5) ∧
    (∀ (p : Player) (roll : ℚ), p.invuln_timer ≤ 0 →
      ¬(0 < p.dodge_level ∧ roll < min (1/2 : ℚ) ((1/20) * (p.dodge_level : ℚ))) →
      p.armor = 1 → p.health = 5 →
      (p.take_hit roll).armor = 0 ∧ (p.take_hit roll).health = 5) ∧
    (∀ (p : Player) (roll : ℚ), p.invuln_timer ≤ 0 →
      ¬(0 < p.dodge_level ∧ roll < min (1/2 : ℚ) ((1/20) * (p.dodge_level : ℚ))) →
      p.armor = 0 → p.health = 5 →
      (p.take_hit roll).armor = 0 ∧ (p.take_hit roll).health = 4) := by
  have hmain : ∀ (p : Player) (roll : ℚ), p.invuln_timer ≤ 0 →
      ¬(0 < p.dodge_level ∧ roll < min (1/2 : ℚ) ((1/20) * (p.dodge_level : ℚ))) →
      p.take_hit roll =
        if 0 < p.armor then { p with armor := p.armor - 1, invuln_timer := 3/5 }
        else { p with health := p.health - 1, invuln_timer := 3/5 } := by
    intro p roll hinv hnd
    unfold Player.take_hit INVULN_ON_HIT_SEC
    rw [if_neg (by linarith), if_neg hnd]
  refine ⟨?_, hmain, ?_, ?_, ?_⟩
  · intro p roll h
    unfold Player.take_hit
    rw [if_pos h]
  · intro p roll hinv hnd ha hh
    rw [hmain p roll hinv hnd, if_pos (by omega)]
    constructor <;> simp [ha, hh]
  · intro p roll hinv hnd ha hh
    rw [hmain p roll hinv hnd, if_pos (by omega)]
    constructor <;> simp [ha, hh]
  · intro p roll hinv hnd ha hh
    rw [hmain p roll hinv hnd, if_neg (by omega)]
    constructor <;> simp [ha, hh]

/-- Claim C6: `should_spawn_boss` is true exactly when no boss is active
and the kill counter has reached `30 + (level-1)*10`; immediately after
`on_boss_killed` it is false (for the reachable levels ≥ 1), and along
subsequent kill increments it becomes true exactly once the incremented
level's threshold `30 + level*10` is reached. -/
theorem should_spawn_boss_gating :
    (∀ s : EnemySpawner, s.should_spawn_boss =
        (!s.boss_active && decide (30 + (s.level - 1) * 10 ≤ s.kills_this_level))) ∧
    (∀ s : EnemySpawner, 1 ≤ s.level →
        s.on_boss_killed.should_spawn_boss = false) ∧
    (∀ (s : EnemySpawner) (n : ℕ),
        (incKills^[n] s.on_boss_killed).should_spawn_boss =
          decide (30 + s.level * 10 ≤ (n : ℤ))) := by
  have h3 : ∀ (s : EnemySpawner) (n : ℕ),
      (incKills^[n] s.on_boss_killed).should_spawn_boss =
        decide (30 + s.level * 10 ≤ (n : ℤ)) := by
    intro s n
    rw [incKills_iterate]
    simp only [EnemySpawner.should_spawn_boss, EnemySpawner.on_boss_killed,
      LEVEL_KILLS_TO_BOSS_BASE, LEVEL_KILLS_TO_BOSS_INC,
      Bool.not_false, Bool.true_and]
    rw [decide_eq_decide]
    constructor <;> intro h <;> omega
  refine ⟨fun s => rfl, ?_, h3⟩
  intro s hs
  have h0 := h3 s 0
  simp only [Function.iterate_zero, id] at h0
  rw [h0]
  simp only [decide_eq_false_iff_not, not_le]
  omega

/-- Claim C7: along every event trace from the initial spawner state
(ticks of arbitrary duration and boss defeats), the current spawn
interval stays at least the floor 0.25 s and never increases at any
step. -/
theorem spawn_interval_monotone_floor (evs : List SpEvent) (ev : SpEvent) :
    1/4 ≤ (evs.foldl applySpEvent EnemySpawner.init).current_interval ∧
      (applySpEvent (evs.foldl applySpEvent EnemySpawner.init) ev).current_interval
        ≤ (evs.foldl applySpEvent EnemySpawner.init).current_interval := by
  have h0 : (1:ℚ)/4 ≤ EnemySpawner.init.current_interval := by
    unfold EnemySpawner.init ENEMY_SPAWN_EVERY_SEC
    norm_num
  have hinv := foldl_interval_lower evs EnemySpawner.init h0
  exact ⟨hinv, (applySpEvent_interval _ ev hinv).2⟩

/-- Claim C8, corrected: `try_shoot` returns none exactly when the
cooldown is positive or the squared distance between the aim point and
the player position is at most the epsilon 1e-6 (the source's
`length_squared() <= 1e-6` test, which also rejects aim points close to
but distinct from the position); on success, the bullet's speed, radius,
pierce, damage and the reset cooldown follow the claimed formulas. -/
theorem try_shoot_formulas (p : Player) (ax ay : ℚ) :
    ((p.try_shoot ax ay).1 = none ↔
        0 < p.shoot_cooldown ∨
          (ax - p.posX) ^ 2 + (ay - p.posY) ^ 2 ≤ 1/1000000) ∧
    (∀ s : ShotSpec, (p.try_shoot ax ay).1 = some s →
        s.speed = 600 * p.bullet_speed_multiplier * (1 + (2/25) * (p.bullet_speed_level : ℚ)) ∧
        s.radius = 4 * (1 + (7/20) * (p.bullet_size_level : ℚ)) ∧
        s.pierce_remaining = p.bullet_pierce_level ∧
        s.damage = 1 + (p.bullet_damage_level : ℤ) ∧
        ((p.try_shoot ax ay).2).shoot_cooldown =
          max (1/50) ((3/25) / p.fire_rate_multiplier)) := by
  constructor
  · simp only [Player.try_shoot]
    split_ifs with h1 h2
    · simp [h1]
    · exact iff_of_true rfl (Or.inr h2)
    · exact iff_of_false (by simp) (by rintro (h | h); exacts [h1 h, h2 h])
  · intro s hs
    by_cases h1 : 0 < p.shoot_cooldown
    · exact absurd hs (by simp only [Player.try_shoot, if_pos h1]; simp)
    by_cases h2 : (ax - p.posX) ^ 2 + (ay - p.posY) ^ 2 ≤ 1/1000000
    · exact absurd hs (by simp only [Player.try_shoot, if_neg h1, if_pos h2]; simp)
    have hrun : p.try_shoot ax ay =
        (some { dirX := ax - p.posX, dirY := ay - p.posY,
                speed := BULLET_SPEED *
                  (p.bullet_speed_multiplier * (1 + (2/25) * (p.bullet_speed_level : ℚ))),
                radius := BULLET_RADIUS * (1 + (7/20) * (p.bullet_size_level : ℚ)),
                pierce_remaining := p.bullet_pierce_level,
                damage := 1 + (p.bullet_damage_level : ℤ) },
         { p with shoot_cooldown := max (1/50) (BULLET_COOLDOWN_SEC / p.fire_rate_multiplier) }) := by
      simp only [Player.try_shoot, if_neg h1, if_neg h2]
    rw [hrun] at hs
    dsimp only at hs
    injection hs with hs
    subst hs
    refine ⟨by unfold BULLET_SPEED; ring, by unfold BULLET_RADIUS; ring, rfl, rfl, ?_⟩
    rw [hrun]
    unfold BULLET_COOLDOWN_SEC
    rfl

section
attribute [local semireducible] Rat.mul Rat.sub Rat.add Rat.inv

/-- Claim C8 counterexample: with zero cooldown and the aim point
(1/2000, 0) distinct from the player position (0, 0), `try_shoot` still
returns none, so "none exactly when the cooldown is positive or the aim
point coincides with the position" fails. -/
theorem try_shoot_epsilon_cex :
    ((Player.init 0 0).try_shoot (1/2000) 0).1 = none ∧
      ¬0 < (Player.init 0 0).shoot_cooldown ∧
      ¬((1/2000 : ℚ) = (Player.init 0 0).posX ∧ (0 : ℚ) = (Player.init 0 0).posY) := by
  refine ⟨by decide, by decide, by decide⟩

end

/-- The success branch of a purchase deducts exactly the computed cost. -/
theorem applyUpgrade_coins (s : ShopCtx) (u : Upgrade) :
    (applyUpgrade s u).player.coins = s.player.coins - compute_cost s u := by
  cases u <;> rfl

/-- Claim C5: a purchase attempt with cost 0 (maxed) or with a balance
below the cost is rejected with no state change at all; a successful
purchase deducts exactly the cost and applies the upgrade's effect (the
success branch `applyUpgrade`); hence a nonnegative balance stays
nonnegative across any sequence of purchase attempts. -/
theorem purchase_rejection_and_nonneg :
    (∀ (s : ShopCtx) (u : Upgrade),
        compute_cost s u = 0 ∨ s.player.coins < compute_cost s u → buy s u = s) ∧
    (∀ (s : ShopCtx) (u : Upgrade),
        0 < compute_cost s u → compute_cost s u ≤ s.player.coins →
        buy s u = applyUpgrade s u ∧
          (buy s u).player.coins = s.player.coins - compute_cost s u) ∧
    (∀ (s : ShopCtx) (u : Upgrade),
        0 ≤ s.player.coins → 0 ≤ (buy s u).player.coins) ∧
    (∀ (s : ShopCtx) (us : List Upgrade),
        0 ≤ s.player.coins → 0 ≤ (us.foldl buy s).player.coins) := by
  have hstep : ∀ (s : ShopCtx) (u : Upgrade),
      0 ≤ s.player.coins → 0 ≤ (buy s u).player.coins := by
    intro s u h
    unfold buy
    split_ifs with hg
    · rw [applyUpgrade_coins]
      omega
    · exact h
  refine ⟨?_, ?_, hstep, ?_⟩
  · intro s u h
    unfold buy
    rw [if_neg]
    rintro ⟨h1, h2⟩
    rcases h with h | h <;> omega
  · intro s u h1 h2
    unfold buy
    rw [if_pos ⟨h1, h2⟩]
    exact ⟨rfl, applyUpgrade_coins s u⟩
  · intro s us
    induction us generalizing s with
    | nil => intro h; exact h
    | cons u rest ih =>
      intro h
      exact ih _ (hstep s u h)

/-- Claim C9: restoring from a persisted snapshot defaults every missing
field to its baseline (0, 1.0 or 60.0), and health is always set to the
restored maximum health rather than read from the snapshot (which has no
health field at all). -/
theorem load_snapshot_defaults :
    (∀ (px py : ℚ) (d : SaveData), d.coins = none → (loadPlayer px py d).coins = 0) ∧
    (∀ (px py : ℚ) (d : SaveData), d.speed_multiplier = none →
        (loadPlayer px py d).speed_multiplier = 1) ∧
    (∀ (px py : ℚ) (d : SaveData), d.fire_rate_multiplier = none →
        (loadPlayer px py d).fire_rate_multiplier = 1) ∧
    (∀ (px py : ℚ) (d : SaveData), d.bullet_size_level = none →
        (loadPlayer px py d).bullet_size_level = 0) ∧
    (∀ (px py : ℚ) (d : SaveData), d.bullet_pierce_level = none →
        (loadPlayer px py d).bullet_pierce_level = 0) ∧
    (∀ (px py : ℚ) (d : SaveData), d.magnet_radius = none →
        (loadPlayer px py d).magnet_radius = 60) ∧
    (∀ (px py : ℚ) (d : SaveData), d.max_health_bonus = none →
        (loadPlayer px py d).max_health_bonus = 0) ∧
    (∀ (px py : ℚ) (d : SaveData), d.armor = none → (loadPlayer px py d).armor = 0) ∧
    (∀ (px py : ℚ) (d : SaveData), d.bullet_damage_level = none →
        (loadPlayer px py d).bullet_damage_level = 0) ∧
    (∀ (px py : ℚ) (d : SaveData), d.coin_gain_level = none →
        (loadPlayer px py d).coin_gain_level = 0) ∧
    (∀ d : SaveData, d.speed_levels = none → (loadCounters d).1 = 0) ∧
    (∀ d : SaveData, d.firerate_levels = none → (loadCounters d).2.1 = 0) ∧
    (∀ d : SaveData, d.pierce_levels = none → (loadCounters d).2.2.1 = 0) ∧
    (∀ d : SaveData, d.size_levels = none → (loadCounters d).2.2.2.1 = 0) ∧
    (∀ d : SaveData, d.magnet_levels = none → (loadCounters d).2.2.2.2.1 = 0) ∧
    (∀ d : SaveData, d.hp_levels = none → (loadCounters d).2.2.2.2.2 = 0) ∧
    (∀ (px py : ℚ) (d : SaveData),
        (loadPlayer px py d).health = (loadPlayer px py d).max_health) := by
  refine ⟨?_, ?_, ?_, ?_, ?_, ?_, ?_, ?_, ?_, ?_, ?_, ?_, ?_, ?_, ?_, ?_, ?_⟩ <;>
    first
      | (intro px py d h; simp [loadPlayer, h])
      | (intro d h; simp [loadCounters, h])
      | (intro px py d; rfl)

end TDS


namespace TDS

theorem bossCoinList_length (n : ℕ) (px py : ℚ) (r : ℕ → ℚ) :
    ∀ i : ℕ, (bossCoinList n px py r i).length = n := by
  induction n with
  | zero => intro i; rfl
  | succ k ih => intro i; simp [bossCoinList, ih]

theorem bossCoinList_mem (n : ℕ) (px py : ℚ) (r : ℕ → ℚ) :
    ∀ i : ℕ, ∀ c ∈ bossCoinList n px py r i,
      c.value = 2 ∧ c.posX = px ∧ c.posY = py := by
  induction n with
  | zero => intro i c hc; cases hc
  | succ k ih =>
    intro i c hc
    simp only [bossCoinList, List.mem_cons] at hc
    rcases hc with rfl | hc
    · exact ⟨rfl, rfl, rfl⟩
    · exact ih _ c hc

theorem procKill_score (st : GameState) (e : Enemy) :
    (procKill st e).score = st.score + 1 := by
  simp only [procKill, spawnBossCoins, GameState.draw]
  split_ifs <;> rfl

theorem procKill_bullets (st : GameState) (e : Enemy) :
    (procKill st e).bullets = st.bullets := by
  simp only [procKill, spawnBossCoins, GameState.draw]
  split_ifs <;> rfl

theorem procKill_enemies (st : GameState) (e : Enemy) :
    (procKill st e).enemies = st.enemies := by
  simp only [procKill, spawnBossCoins, GameState.draw]
  split_ifs <;> rfl

theorem procKill_rng (st : GameState) (e : Enemy) :
    (procKill st e).rng = st.rng := by
  simp only [procKill, spawnBossCoins, GameState.draw]
  split_ifs <;> rfl

theorem procKill_spawner (st : GameState) (e : Enemy) :
    (procKill st e).spawner =
      incKills (if e.is_boss then st.spawner.on_boss_killed else st.spawner) := by
  simp only [procKill, spawnBossCoins, GameState.draw]
  split_ifs <;> rfl

theorem procKill_coins_boss (st : GameState) (e : Enemy) (hb : e.is_boss = true) :
    (procKill st e).coins =
      st.coins ++ bossCoinList 14 e.posX e.posY st.rng st.rIdx := by
  simp only [procKill, spawnBossCoins, GameState.draw, hb]
  split_ifs <;> rfl

theorem procEnemy_nohit (st : GameState) (e : Enemy)
    (h : hitSplit e st.bullets = none) :
    procEnemy st e = { st with enemies := st.enemies ++ [e] } := by
  unfold procEnemy
  rw [h]

theorem procEnemy_hit_survive (st : GameState) (e : Enemy)
    (pre : List Bullet) (b : Bullet) (post : List Bullet)
    (h : hitSplit e st.bullets = some (pre, b, post)) (hh : 1 < e.health) :
    procEnemy st e =
      { st with bullets := pre ++ bulletAfterHit b :: post,
                enemies := st.enemies ++ [{ e with health := e.health - 1 }] } := by
  unfold procEnemy
  rw [h]
  dsimp only
  rw [if_neg (by omega)]

theorem procEnemy_hit_kill (st : GameState) (e : Enemy)
    (pre : List Bullet) (b : Bullet) (post : List Bullet)
    (h : hitSplit e st.bullets = some (pre, b, post)) (hh : e.health ≤ 1) :
    procEnemy st e =
      procKill { st with bullets := pre ++ bulletAfterHit b :: post }
        { e with health := e.health - 1 } := by
  unfold procEnemy
  rw [h]
  dsimp only
  rw [if_pos (by omega)]

theorem hitSplit_map_damage (e : Enemy) (d : ℤ) (bs : List Bullet) :
    hitSplit e (bs.map (fun b => { b with damage := d })) =
      (hitSplit e bs).map (fun t =>
        (t.1.map (fun b => { b with damage := d }),
         { t.2.1 with damage := d },
         t.2.2.map (fun b => { b with damage := d }))) := by
  induction bs with
  | nil => rfl
  | cons b rest ih =>
    simp only [List.map_cons, hitSplit]
    by_cases hb : Bullet.overlapsEnemy e b
    · rw [show Bullet.overlapsEnemy e { b with damage := d } =
            Bullet.overlapsEnemy e b from rfl]
      rw [if_pos hb, if_pos hb]
      rfl
    · rw [show Bullet.overlapsEnemy e { b with damage := d } =
            Bullet.overlapsEnemy e b from rfl]
      rw [if_neg hb, if_neg hb, ih]
      cases hsp : hitSplit e rest with
      | none => rfl
      | some t =>
        obtain ⟨pre, hb2, post⟩ := t
        rfl

/-- Claim C3: in the bullet-vs-enemy pass each enemy is damaged by at
most the first overlapping bullet (no hit: unchanged and kept; hit: its
health drops by exactly 1, surviving iff the result is positive), and
which bullet hits, and the resulting health, are independent of every
bullet's `damage` field. -/
theorem enemy_single_unit_damage :
    (∀ (st : GameState) (e : Enemy), hitSplit e st.bullets = none →
        (procEnemy st e).enemies = st.enemies ++ [e]) ∧
    (∀ (st : GameState) (e : Enemy) (pre : List Bullet) (b : Bullet) (post : List Bullet),
        hitSplit e st.bullets = some (pre, b, post) → 1 < e.health →
        (procEnemy st e).enemies = st.enemies ++ [{ e with health := e.health - 1 }]) ∧
    (∀ (st : GameState) (e : Enemy) (pre : List Bullet) (b : Bullet) (post : List Bullet),
        hitSplit e st.bullets = some (pre, b, post) → e.health ≤ 1 →
        (procEnemy st e).enemies = st.enemies) ∧
    (∀ (e : Enemy) (d : ℤ) (bs : List Bullet),
        hitSplit e (bs.map (fun b => { b with damage := d })) =
          (hitSplit e bs).map (fun t =>
            (t.1.map (fun b => { b with damage := d }),
             { t.2.1 with damage := d },
             t.2.2.map (fun b => { b with damage := d })))) := by
  refine ⟨?_, ?_, ?_, hitSplit_map_damage⟩
  · intro st e h
    rw [procEnemy_nohit st e h]
  · intro st e pre b post h hh
    rw [procEnemy_hit_survive st e pre b post h hh]
  · intro st e pre b post h hh
    rw [procEnemy_hit_kill st e pre b post h hh, procKill_enemies]

end TDS

namespace TDS

theorem overlapsEnemy_bulletAfterHit (e : Enemy) (b : Bullet) :
    Bullet.overlapsEnemy e (bulletAfterHit b) = Bullet.overlapsEnemy e b := by
  unfold bulletAfterHit
  split_ifs <;> rfl

theorem procEnemy_single_bullet_kill (st : GameState) (e : Enemy) (bb : Bullet)
    (hbul : st.bullets = [bb]) (hov : Bullet.overlapsEnemy e bb = true)
    (hh : e.health ≤ 1) :
    (procEnemy st e).bullets = [bulletAfterHit bb] ∧
    (procEnemy st e).enemies = st.enemies ∧
    (procEnemy st e).score = st.score + 1 := by
  have hsplit : hitSplit e st.bullets = some ([], bb, []) := by
    rw [hbul]
    simp [hitSplit, hov]
  rw [procEnemy_hit_kill st e [] bb [] hsplit hh]
  refine ⟨?_, ?_, ?_⟩
  · rw [procKill_bullets]
    rfl
  · rw [procKill_enemies]
  · rw [procKill_score]

theorem spawn_boss_bullets (W H : ℚ) (st : GameState) :
    (GameState.spawn_boss W H st).bullets = st.bullets := rfl

theorem spawn_boss_score (W H : ℚ) (st : GameState) :
    (GameState.spawn_boss W H st).score = st.score := rfl

theorem resolverPass_bullets (W H : ℚ) (g : GameState) :
    (resolverPass W H g).bullets = (passCore W H g).bullets := by
  simp only [resolverPass]
  split_ifs
  · rw [spawn_boss_bullets]
  · rfl

theorem resolverPass_score (W H : ℚ) (g : GameState) :
    (resolverPass W H g).score = (passCore W H g).score := by
  simp only [resolverPass]
  split_ifs
  · rw [spawn_boss_score]
  · rfl

end TDS

namespace TDS

/-- Claim C1, corrected: a resolver pass that kills a boss (the boss is
the enemy list's single entry, has health 1 and is overlapped by a
bullet) creates exactly 14 coins of value 2 at the boss position,
increments the level, clears `boss_active` and starts the 1.2 s level
transition during which `should_spawn` is false — but `kills_this_level`
ends the pass at 1, not 0: `on_boss_killed` resets it to 0 and the shared
kill bookkeeping of the pass then increments it for the boss's own
kill. -/
theorem boss_kill_pass (W H : ℚ) (g : GameState) (e : Enemy)
    (pre : List Bullet) (b : Bullet) (post : List Bullet)
    (hen : g.enemies = [e]) (hboss : e.is_boss = true) (hhp : e.health = 1)
    (hhit : hitSplit e g.bullets = some (pre, b, post))
    (hlvl : 1 ≤ g.spawner.level) :
    (resolverPass W H g).coins.length = g.coins.length + 14 ∧
    (resolverPass W H g).coins.take g.coins.length = g.coins ∧
    (∀ c ∈ (resolverPass W H g).coins.drop g.coins.length,
        c.value = 2 ∧ c.posX = e.posX ∧ c.posY = e.posY) ∧
    (resolverPass W H g).spawner.level = g.spawner.level + 1 ∧
    (resolverPass W H g).spawner.kills_this_level = 1 ∧
    (resolverPass W H g).spawner.boss_active = false ∧
    (resolverPass W H g).spawner.level_transition_timer = 6/5 ∧
    (resolverPass W H g).spawner.should_spawn = false ∧
    (∀ s : EnemySpawner, 0 < s.level_transition_timer → s.should_spawn = false) := by
  have htrans : ∀ s : EnemySpawner, 0 < s.level_transition_timer →
      s.should_spawn = false := by
    intro s hs
    unfold EnemySpawner.should_spawn
    have hlt : ¬s.level_transition_timer ≤ 0 := by linarith
    simp [hlt]
  have hb2 : Enemy.is_boss { e with health := e.health - 1 } = true := hboss
  have hcore : passCore W H g =
      { procKill { g with enemies := [], bullets := pre ++ bulletAfterHit b :: post }
            { e with health := e.health - 1 } with
          bullets :=
            (procKill { g with enemies := [], bullets := pre ++ bulletAfterHit b :: post }
                { e with health := e.health - 1 }).bullets.filter
              (Bullet.is_alive W H) } := by
    have hhit0 : hitSplit e ({ g with enemies := ([] : List Enemy) }).bullets =
        some (pre, b, post) := hhit
    unfold passCore
    rw [hen]
    simp only [List.foldl_cons, List.foldl_nil]
    rw [procEnemy_hit_kill _ _ pre b post hhit0 (by omega)]
  have hsp : (passCore W H g).spawner = incKills g.spawner.on_boss_killed := by
    rw [hcore]
    show (procKill _ _).spawner = _
    rw [procKill_spawner, if_pos hb2]
  have hgate : (passCore W H g).spawner.should_spawn_boss = false := by
    rw [hsp]
    simp only [incKills, EnemySpawner.on_boss_killed, EnemySpawner.should_spawn_boss,
      LEVEL_KILLS_TO_BOSS_BASE, LEVEL_KILLS_TO_BOSS_INC,
      Bool.not_false, Bool.true_and, decide_eq_false_iff_not]
    omega
  have hres : resolverPass W H g = passCore W H g := by
    simp only [resolverPass]
    rw [hgate]
    simp
  have hcoins : (resolverPass W H g).coins =
      g.coins ++ bossCoinList 14 e.posX e.posY g.rng g.rIdx := by
    rw [hres, hcore]
    show (procKill _ _).coins = _
    rw [procKill_coins_boss _ _ hb2]
  have hsp2 : (resolverPass W H g).spawner = incKills g.spawner.on_boss_killed := by
    rw [hres, hsp]
  refine ⟨?_, ?_, ?_, ?_, ?_, ?_, ?_, ?_, htrans⟩
  · rw [hcoins]
    simp [bossCoinList_length]
  · rw [hcoins]
    exact List.take_left _ _
  · rw [hcoins, List.drop_left]
    exact bossCoinList_mem 14 e.posX e.posY g.rng g.rIdx
  · rw [hsp2]
    rfl
  · rw [hsp2]
    rfl
  · rw [hsp2]
    rfl
  · rw [hsp2]
    rfl
  · rw [hsp2]
    exact htrans _ (by norm_num [incKills, EnemySpawner.on_boss_killed])
  
end TDS

namespace TDS

theorem bulletAfterHit_pos (b : Bullet) (h : 0 < b.pierce_remaining) :
    bulletAfterHit b = { b with pierce_remaining := b.pierce_remaining - 1 } := by
  unfold bulletAfterHit
  rw [if_pos h]

theorem bulletAfterHit_zero (b : Bullet) (h : b.pierce_remaining = 0) :
    bulletAfterHit b = { b with lifetime := 0 } := by
  unfold bulletAfterHit
  rw [if_neg (by omega)]

/-- Claim C2, corrected: the colliding bullet survives with its pierce
decremented when pierce is positive, and otherwise has its lifetime
zeroed — which removes it in the end-of-pass purge and for all later
ticks, but does not stop it from striking enemies processed later in the
same pass.  The claimed pierce-2 scenario holds: against three
overlapping enemies of health 1, the bullet kills all three and is gone
after the pass. -/
theorem pierce_decrement_consumption (W H : ℚ) :
    (∀ (st : GameState) (e : Enemy) (pre : List Bullet) (b : Bullet) (post : List Bullet),
        hitSplit e st.bullets = some (pre, b, post) →
        (procEnemy st e).bullets = pre ++ bulletAfterHit b :: post) ∧
    (∀ b : Bullet, 0 < b.pierce_remaining →
        bulletAfterHit b = { b with pierce_remaining := b.pierce_remaining - 1 }) ∧
    (∀ b : Bullet, b.pierce_remaining = 0 →
        bulletAfterHit b = { b with lifetime := 0 }) ∧
    (∀ (g : GameState) (e1 e2 e3 : Enemy) (b : Bullet),
        g.enemies = [e1, e2, e3] → g.bullets = [b] → b.pierce_remaining = 2 →
        e1.health = 1 → e2.health = 1 → e3.health = 1 →
        Bullet.overlapsEnemy e1 b = true → Bullet.overlapsEnemy e2 b = true →
        Bullet.overlapsEnemy e3 b = true →
        (passCore W H g).enemies = [] ∧
        (resolverPass W H g).score = g.score + 3 ∧
        (resolverPass W H g).bullets = []) := by
  refine ⟨?_, bulletAfterHit_pos, bulletAfterHit_zero, ?_⟩
  · intro st e pre b post h
    unfold procEnemy
    rw [h]
    dsimp only
    split_ifs
    · rw [procKill_bullets]
    · rfl
  · intro g e1 e2 e3 b hen hbul hp2 h1 h2 h3 hov1 hov2 hov3
    have hov2' : Bullet.overlapsEnemy e2 (bulletAfterHit b) = true := by
      rw [overlapsEnemy_bulletAfterHit]
      exact hov2
    have hov3' : Bullet.overlapsEnemy e3 (bulletAfterHit (bulletAfterHit b)) = true := by
      rw [overlapsEnemy_bulletAfterHit, overlapsEnemy_bulletAfterHit]
      exact hov3
    have hb0 : ({ g with enemies := ([] : List Enemy) } : GameState).bullets = [b] := hbul
    have A1 := procEnemy_single_bullet_kill { g with enemies := ([] : List Enemy) }
      e1 b hb0 hov1 (by omega)
    have A2 := procEnemy_single_bullet_kill
      (procEnemy { g with enemies := ([] : List Enemy) } e1) e2 (bulletAfterHit b)
      A1.1 hov2' (by omega)
    have A3 := procEnemy_single_bullet_kill
      (procEnemy (procEnemy { g with enemies := ([] : List Enemy) } e1) e2) e3
      (bulletAfterHit (bulletAfterHit b)) A2.1 hov3' (by omega)
    have hfold : passCore W H g =
        { procEnemy (procEnemy (procEnemy { g with enemies := [] } e1) e2) e3 with
            bullets :=
              (procEnemy (procEnemy (procEnemy { g with enemies := [] } e1) e2)
                  e3).bullets.filter (Bullet.is_alive W H) } := by
      unfold passCore
      rw [hen]
      simp only [List.foldl_cons, List.foldl_nil]
    have e1p : (bulletAfterHit b).pierce_remaining = 1 := by
      rw [bulletAfterHit_pos b (by omega)]
      show b.pierce_remaining - 1 = 1
      omega
    have e2p : (bulletAfterHit (bulletAfterHit b)).pierce_remaining = 0 := by
      rw [bulletAfterHit_pos (bulletAfterHit b) (by omega)]
      show (bulletAfterHit b).pierce_remaining - 1 = 0
      omega
    have h3l : bulletAfterHit (bulletAfterHit (bulletAfterHit b)) =
        { bulletAfterHit (bulletAfterHit b) with lifetime := 0 } :=
      bulletAfterHit_zero _ e2p
    refine ⟨?_, ?_, ?_⟩
    · rw [hfold]
      show (procEnemy (procEnemy (procEnemy { g with enemies := [] } e1) e2) e3).enemies
        = ([] : List Enemy)
      rw [A3.2.1, A2.2.1, A1.2.1]
    · rw [resolverPass_score, hfold]
      show (procEnemy (procEnemy (procEnemy { g with enemies := [] } e1) e2) e3).score
        = g.score + 3
      rw [A3.2.2, A2.2.2, A1.2.2]
      show g.score + 1 + 1 + 1 = g.score + 3
      omega
    · rw [resolverPass_bullets, hfold]
      show (List.filter (Bullet.is_alive W H)
          (procEnemy (procEnemy (procEnemy { g with enemies := [] } e1) e2) e3).bullets) = []
      rw [A3.1, h3l]
      simp [Bullet.is_alive]

end TDS

namespace TDS

theorem setCG_on_kill (c g : ℕ) (p : Player) :
    (setCG c g p).on_kill = setCG c g p.on_kill := by
  cases p
  unfold setCG Player.on_kill Player.max_health
  dsimp only
  split_ifs <;> rfl

theorem setCG_take_hit (c g : ℕ) (p : Player) (roll : ℚ) :
    (setCG c g p).take_hit roll = setCG c g (p.take_hit roll) := by
  cases p
  unfold setCG Player.take_hit
  dsimp only
  split_ifs <;> rfl

theorem setCG_try_shoot (c g : ℕ) (p : Player) (ax ay : ℚ) :
    ((setCG c g p).try_shoot ax ay).1 = (p.try_shoot ax ay).1 ∧
    ((setCG c g p).try_shoot ax ay).2 = setCG c g (p.try_shoot ax ay).2 := by
  cases p
  unfold setCG Player.try_shoot
  dsimp only
  split_ifs <;> exact ⟨rfl, rfl⟩

theorem procKill_setCGst (c g : ℕ) (st : GameState) (e : Enemy) :
    procKill (setCGst c g st) e = setCGst c g (procKill st e) := by
  unfold procKill setCGst spawnBossCoins GameState.draw incKills
  cases st
  dsimp only
  rw [setCG_on_kill]
  dsimp only [setCG]
  split_ifs <;> rfl

theorem procEnemy_setCGst (c g : ℕ) (st : GameState) (e : Enemy) :
    procEnemy (setCGst c g st) e = setCGst c g (procEnemy st e) := by
  unfold procEnemy
  rw [show (setCGst c g st).bullets = st.bullets from rfl]
  cases hsp : hitSplit e st.bullets with
  | none => rfl
  | some t =>
    obtain ⟨pre, b, post⟩ := t
    dsimp only
    split_ifs with hd
    · rw [show ({ setCGst c g st with bullets := pre ++ bulletAfterHit b :: post } : GameState)
            = setCGst c g { st with bullets := pre ++ bulletAfterHit b :: post } from rfl]
      rw [procKill_setCGst]
    · rfl

theorem foldl_procEnemy_setCGst (c g : ℕ) (es : List Enemy) :
    ∀ st : GameState,
      es.foldl procEnemy (setCGst c g st) = setCGst c g (es.foldl procEnemy st) := by
  induction es with
  | nil => intro st; rfl
  | cons e rest ih =>
    intro st
    simp only [List.foldl_cons]
    rw [procEnemy_setCGst, ih]

theorem passCore_setCGst (c g : ℕ) (W H : ℚ) (st : GameState) :
    passCore W H (setCGst c g st) = setCGst c g (passCore W H st) := by
  unfold passCore
  rw [show (setCGst c g st).enemies = st.enemies from rfl,
      show ({ setCGst c g st with enemies := ([] : List Enemy) } : GameState)
        = setCGst c g { st with enemies := ([] : List Enemy) } from rfl,
      foldl_procEnemy_setCGst]
  rfl

theorem spawn_boss_setCGst (c g : ℕ) (W H : ℚ) (st : GameState) :
    GameState.spawn_boss W H (setCGst c g st) = setCGst c g (st.spawn_boss W H) := rfl

theorem resolverPass_setCGst (c g : ℕ) (W H : ℚ) (st : GameState) :
    resolverPass W H (setCGst c g st) = setCGst c g (resolverPass W H st) := by
  unfold resolverPass
  rw [passCore_setCGst]
  dsimp only
  rw [show (setCGst c g (passCore W H st)).spawner = (passCore W H st).spawner from rfl]
  split_ifs with h
  · exact spawn_boss_setCGst c g W H (passCore W H st)
  · rfl

/-- Claim C10: the crit and coin-gain counters never influence any combat
or economy outcome: overwriting them commutes with the whole resolver
pass (so damage dealt, coin-drop decisions and coin values are
identical), with `take_hit` and with `try_shoot` (which also returns an
identical bullet); and purchasing either upgrade changes nothing but the
coin balance and the counter itself. -/
theorem crit_coin_levels_inert :
    (∀ (c g : ℕ) (W H : ℚ) (st : GameState),
        resolverPass W H (setCGst c g st) = setCGst c g (resolverPass W H st)) ∧
    (∀ (c g : ℕ) (p : Player) (roll : ℚ),
        (setCG c g p).take_hit roll = setCG c g (p.take_hit roll)) ∧
    (∀ (c g : ℕ) (p : Player) (ax ay : ℚ),
        ((setCG c g p).try_shoot ax ay).1 = (p.try_shoot ax ay).1 ∧
        ((setCG c g p).try_shoot ax ay).2 = setCG c g (p.try_shoot ax ay).2) ∧
    (∀ p : Player,
        { buyCritItem p with coins := p.coins, crit_level := p.crit_level } = p) ∧
    (∀ s : ShopCtx,
        { buy s Upgrade.coin with
            player := { (buy s Upgrade.coin).player with
                coins := s.player.coins,
                coin_gain_level := s.player.coin_gain_level } } = s) := by
  refine ⟨resolverPass_setCGst, setCG_take_hit, setCG_try_shoot, ?_, ?_⟩
  · intro p
    unfold buyCritItem
    split_ifs <;> rfl
  · intro s
    unfold buy
    split_ifs <;> rfl

end TDS

namespace TDS

section
attribute [local semireducible] Rat.mul Rat.sub Rat.add Rat.inv

/-- Claim C1 counterexample: a concrete pass that kills the boss
(level goes up by 1) ends with `kills_this_level` different from 0 — the
claimed "kills_this_level is 0 at the end of the pass" is false. -/
theorem boss_kill_kills_counter_cex :
    fixBoss.is_boss = true ∧ fixBoss.health = 1 ∧
    (hitSplit fixBoss (fixG [fixBoss] [fixBullet] fixSpawner).bullets).isSome = true ∧
    (resolverPass 960 540 (fixG [fixBoss] [fixBullet] fixSpawner)).spawner.level =
      (fixG [fixBoss] [fixBullet] fixSpawner).spawner.level + 1 ∧
    ¬(resolverPass 960 540
        (fixG [fixBoss] [fixBullet] fixSpawner)).spawner.kills_this_level = 0 := by
  exact ⟨rfl, rfl, by decide, by decide, by decide⟩

/-- Claim C1 witness: the amended theorem applied to the concrete boss
kill. -/
theorem boss_kill_pass_witness :
    (1 : ℤ) ≤ (fixG [fixBoss] [fixBullet] fixSpawner).spawner.level ∧
    (resolverPass 960 540 (fixG [fixBoss] [fixBullet] fixSpawner)).coins.length =
      (fixG [fixBoss] [fixBullet] fixSpawner).coins.length + 14 :=
  ⟨by decide,
   (boss_kill_pass 960 540 (fixG [fixBoss] [fixBullet] fixSpawner) fixBoss
      [] fixBullet [] rfl rfl rfl (by decide) (by decide)).1⟩

/-- Claim C2 counterexample: a bullet with zero pierce overlaps two
enemies of health 1; after its first kill its lifetime is zeroed, yet it
still kills the second enemy in the same pass (score rises by 2 and no
enemy survives), refuting "the bullet is consumed and hits no further
enemy". -/
theorem pierce_zero_still_hits_cex :
    fixBullet.pierce_remaining = 0 ∧
    (passCore 960 540 (fixG [fixEnemy 0 1, fixEnemy 9 1] [fixBullet]
        { fixSpawner with boss_active := false, kills_this_level := 0 })).enemies = [] ∧
    (resolverPass 960 540 (fixG [fixEnemy 0 1, fixEnemy 9 1] [fixBullet]
        { fixSpawner with boss_active := false, kills_this_level := 0 })).score = 2 := by
  exact ⟨rfl, by decide, by decide⟩

/-- Claim C2 witness: the amended theorem's pierce-2 scenario applied to
three concrete overlapping enemies. -/
theorem pierce_decrement_witness :
    ({ fixBullet with pierce_remaining := 2 } : Bullet).pierce_remaining = 2 ∧
    (passCore 960 540 (fixG [fixEnemy 0 1, fixEnemy 9 1, fixEnemy 18 1]
        [{ fixBullet with pierce_remaining := 2 }]
        { fixSpawner with boss_active := false, kills_this_level := 0 })).enemies = [] :=
  ⟨rfl,
   ((pierce_decrement_consumption 960 540).2.2.2
      (fixG [fixEnemy 0 1, fixEnemy 9 1, fixEnemy 18 1]
        [{ fixBullet with pierce_remaining := 2 }]
        { fixSpawner with boss_active := false, kills_this_level := 0 })
      (fixEnemy 0 1) (fixEnemy 9 1) (fixEnemy 18 1)
      { fixBullet with pierce_remaining := 2 }
      rfl rfl rfl rfl rfl rfl (by decide) (by decide) (by decide)).1⟩

/-- Claim C3 witness: a health-3 enemy hit by the single overlapping
bullet loses exactly one health point. -/
theorem enemy_single_unit_damage_witness :
    hitSplit (fixEnemy 0 3) (fixG [] [fixBullet] fixSpawner).bullets =
      some ([], fixBullet, []) ∧
    (procEnemy (fixG [] [fixBullet] fixSpawner) (fixEnemy 0 3)).enemies =
      (fixG [] [fixBullet] fixSpawner).enemies ++
        [{ fixEnemy 0 3 with health := (fixEnemy 0 3).health - 1 }] :=
  ⟨by decide,
   enemy_single_unit_damage.2.1 (fixG [] [fixBullet] fixSpawner) (fixEnemy 0 3)
     [] fixBullet [] (by decide) (by decide)⟩

/-- Claim C4 witness: a non-dodged, non-invulnerable hit on armor 2 and
health 5 consumes armor only. -/
theorem take_hit_witness :
    ({ Player.init 480 270 with armor := 2 } : Player).invuln_timer ≤ 0 ∧
    (({ Player.init 480 270 with armor := 2 } : Player).take_hit 1).armor = 1 ∧
    (({ Player.init 480 270 with armor := 2 } : Player).take_hit 1).health = 5 :=
  ⟨by decide,
   (take_hit_armor_before_health.2.2.1 { Player.init 480 270 with armor := 2 } 1
      (by decide) (by decide) rfl rfl).1,
   (take_hit_armor_before_health.2.2.1 { Player.init 480 270 with armor := 2 } 1
      (by decide) (by decide) rfl rfl).2⟩

/-- Claim C5 witness: with no coins, a speed purchase (cost 10) is
rejected without any state change. -/
theorem purchase_witness :
    fixShop.player.coins < compute_cost fixShop Upgrade.speed ∧
    buy fixShop Upgrade.speed = fixShop :=
  ⟨by decide,
   purchase_rejection_and_nonneg.1 fixShop Upgrade.speed (Or.inr (by decide))⟩

/-- Claim C6 witness: right after a boss kill from the initial spawner
state, the boss gate is closed. -/
theorem boss_gating_witness :
    (1 : ℤ) ≤ EnemySpawner.init.level ∧
    EnemySpawner.init.on_boss_killed.should_spawn_boss = false :=
  ⟨by decide, should_spawn_boss_gating.2.1 EnemySpawner.init (by decide)⟩

/-- Claim C8 witness: a successful shot from the origin towards (100, 0)
carries the claimed speed formula. -/
theorem try_shoot_witness :
    ((Player.init 0 0).try_shoot 100 0).1 =
      some { dirX := 100, dirY := 0, speed := 600, radius := 4,
             pierce_remaining := 0, damage := 1 } ∧
    ({ dirX := 100, dirY := 0, speed := 600, radius := 4,
       pierce_remaining := 0, damage := 1 } : ShotSpec).speed =
      600 * (Player.init 0 0).bullet_speed_multiplier *
        (1 + (2/25) * ((Player.init 0 0).bullet_speed_level : ℚ)) :=
  ⟨by decide, ((try_shoot_formulas (Player.init 0 0) 100 0).2 _ (by decide)).1⟩

/-- Claim C9 witness: a snapshot with every field missing restores a
coin balance of 0. -/
theorem load_defaults_witness :
    fixSave.coins = none ∧ (loadPlayer 480 270 fixSave).coins = 0 :=
  ⟨rfl, load_snapshot_defaults.1 480 270 fixSave rfl⟩

end

end TDS
